import Mathlib

/-
Verification of the `asserts` library (src/asserts/__init__.py): a shallow
embedding of its message-formatting subsystem, its predicate assertions and
its context-manager based exception/warning matchers, together with theorems
about the embedded code.

Conventions of the embedding:
* Python functions that may raise become Lean functions into `Except PyExc _`.
* `str.format` templates are represented as parsed templates (`Fmt`), a list
  of literal and field parts; `"{msg}"` is `defaultFmt`.  Keyword arguments
  passed to `format` become an association list from field name to a
  `CtxVal`, which carries the `repr` and `str` renderings of the value
  (Python chooses between them via the `!r` conversion).
* Mutable object state (`self._exc_val`, the warning buffer) is passed and
  returned explicitly.
-/

namespace Asserts

/-- Python exception values that the embedded code can raise:
`AssertionError` (test failures), `RuntimeError` (API misuse) and the
`KeyError` raised by `str.format` for an unknown field name. -/
inductive PyExc where
  | assertionError (msg : String)
  | runtimeError (msg : String)
  | keyError (name : String)
  deriving Repr, DecidableEq

/-- Python `repr` of a string: the text in single quotes.  Quote and escape
characters inside the text are not modelled; no value in this development
contains them. -/
def q (s : String) : String := "\x27" ++ s ++ "\x27"

/-- A format-context value: the `repr` and `str` renderings of a Python
value, which is all `str.format` can observe of it for the templates the
library uses. -/
structure CtxVal where
  reprS : String
  strS : String
  deriving Repr, DecidableEq

/-- Context value for a Python `str` (its `str` is itself, `repr` quotes). -/
def CtxVal.ofStr (s : String) : CtxVal := ⟨q s, s⟩

/-- Context value for a value whose `repr` and `str` renderings agree
(ints, `None`, class objects as rendered by the environment). -/
def CtxVal.raw (s : String) : CtxVal := ⟨s, s⟩

/-- Conversion flag of a replacement field: plain `{name}` uses `str`,
`{name!r}` uses `repr`. -/
inductive Conv where
  | toStr
  | toRepr
  deriving Repr, DecidableEq

def CtxVal.render : CtxVal → Conv → String
  | v, .toStr => v.strS
  | v, .toRepr => v.reprS

/-- One parsed part of a `str.format` template. -/
inductive FmtPart where
  | lit (s : String)
  | field (name : String) (conv : Conv)
  deriving Repr, DecidableEq

/-- A parsed `str.format` template. -/
abbrev Fmt := List FmtPart

/-- `template.format(**context)`: substitute each field from the context;
a field name missing from the context raises `KeyError`, as in Python. -/
def Fmt.format : Fmt → List (String × CtxVal) → Except PyExc String
  | [], _ => .ok ""
  | .lit s :: rest, ctx => (Fmt.format rest ctx).map (fun r => s ++ r)
  | .field n c :: rest, ctx =>
    match ctx.lookup n with
    | none => .error (.keyError n)
    | some v => (Fmt.format rest ctx).map (fun r => v.render c ++ r)

/-- The default `msg_fmt` of every assertion: the template `"{msg}"`. -/
def defaultFmt : Fmt := [.field "msg" .toStr]

/-- The message actually carried by the `AssertionError` raised by `fail`:
`msg or "assertion failure"` substitutes the default for `None` and for the
empty (falsy) string. -/
def failMsg : Option String → String
  | some m => if m = "" then "assertion failure" else m
  | none => "assertion failure"

/-- `fail(msg)` from the source: raise an `AssertionError` with the given
message, or `"assertion failure"` when the message is falsy. -/
def fail (msg : Option String) : Except PyExc Unit :=
  .error (.assertionError (failMsg msg))

/-- `fail(msg_fmt.format(**ctx))`, the failure path shared by the predicate
assertions: a `KeyError` from formatting propagates, otherwise the formatted
message is raised as an `AssertionError`. -/
def failFmt (fmt : Fmt) (ctx : List (String × CtxVal)) : Except PyExc Unit :=
  match Fmt.format fmt ctx with
  | .error e => .error e
  | .ok m => fail (some m)

/-- The ambient Python exception machinery that the matcher consults, over
an abstract type `K` of exception classes: the subclass test, a class's
`__name__` and its `repr` rendering. -/
structure ExcEnv (K : Type) where
  issubclass : K → K → Bool
  name : K → String
  typeRepr : K → String

/-- State of an `AssertRaisesContext` object: the expected exception class,
the message template, the captured exception value (`self._exc_val`,
initially `None`) and the registered test callbacks (`self._tests`).
A callback raises by returning `.error`.  The `fmt_extra` field holds the
additional keyword arguments that the `format_message` override of a
subclass (`AssertRaisesRegexContext`, `AssertRaisesErrnoContext`) passes;
it is empty for the base class. -/
structure AssertRaisesContext (K V : Type) where
  exception : K
  msg_fmt : Fmt
  exc_val : Option V
  tests : List (V → Except PyExc Unit)
  fmt_extra : List (String × CtxVal)

/-- `assert_raises(exception, msg_fmt)`: a fresh context with no captured
exception and no tests. -/
def assert_raises {K : Type} (V : Type) (exception : K) (msg_fmt : Fmt) :
    AssertRaisesContext K V :=
  ⟨exception, msg_fmt, none, [], []⟩

/-- `add_test(cb)`: append a callback to `self._tests`. -/
def AssertRaisesContext.add_test {K V : Type} (c : AssertRaisesContext K V)
    (cb : V → Except PyExc Unit) : AssertRaisesContext K V :=
  { c with tests := c.tests ++ [cb] }

/-- The keyword arguments `format_message` passes to `msg_fmt.format`:
`msg`, `exc_type`, `exc_name`, plus any subclass extras. -/
def AssertRaisesContext.fmt_ctx {K V : Type} (env : ExcEnv K)
    (c : AssertRaisesContext K V) (default_msg : String) :
    List (String × CtxVal) :=
  ("msg", CtxVal.ofStr default_msg) ::
  ("exc_type", CtxVal.raw (env.typeRepr c.exception)) ::
  ("exc_name", CtxVal.ofStr (env.name c.exception)) :: c.fmt_extra

/-- `AssertRaisesContext.format_message(default_msg)`. -/
def AssertRaisesContext.format_message {K V : Type} (env : ExcEnv K)
    (c : AssertRaisesContext K V) (default_msg : String) :
    Except PyExc String :=
  Fmt.format c.msg_fmt (c.fmt_ctx env default_msg)

/-- Run the registered callbacks in order on the captured exception value,
stopping at the first one that raises (`for test in self._tests:
test(exc_val)`). -/
def runTests {V : Type} : List (V → Except PyExc Unit) → V → Except PyExc Unit
  | [], _ => .ok ()
  | t :: ts, v =>
    match t v with
    | .error e => .error e
    | .ok _ => runTests ts v

/-- `AssertRaisesContext.__exit__`.  The incoming exception is `none` when
the block finished normally (Python passes `(None, None, None)`; exception
instances are truthy, so `not exc_type or not exc_val` holds exactly then)
and `some (ty, v)` when the block raised an instance `v` of class `ty`.
Returns the updated object state and either the raised exception
(`.error`) or the boolean suppression flag (`.ok`). -/
def AssertRaisesContext.exit {K V : Type} (env : ExcEnv K)
    (c : AssertRaisesContext K V) (exc : Option (K × V)) :
    AssertRaisesContext K V × Except PyExc Bool :=
  match exc with
  | none =>
    let msg := env.name c.exception ++ " not raised"
    (c, match c.format_message env msg with
        | .ok s => .error (.assertionError (failMsg (some s)))
        | .error e => .error e)
  | some (ty, v) =>
    let c1 := { c with exc_val := some v }
    if env.issubclass ty c.exception = false then (c1, .ok false)
    else
      match runTests c.tests v with
      | .error e => (c1, .error e)
      | .ok _ => (c1, .ok true)

/-- The `exc_val` property: a `RuntimeError` — distinct from
`AssertionError` — when nothing has been captured yet. -/
def AssertRaisesContext.exc_val_prop {K V : Type}
    (c : AssertRaisesContext K V) : Except PyExc V :=
  match c.exc_val with
  | none => .error (.runtimeError "must be called after leaving the context")
  | some v => .ok v

/-- The `with` statement around an `AssertRaisesContext`: if `__exit__`
raises, that exception propagates (replacing the block's exception);
otherwise the block's exception propagates unless `__exit__` returned a
truthy value.  The block's exception is kept in the left summand so that
"propagates unchanged" is visible in the result type. -/
def runRaisesScope {K V : Type} (env : ExcEnv K)
    (c : AssertRaisesContext K V) (exc : Option (K × V)) :
    AssertRaisesContext K V × Except ((K × V) ⊕ PyExc) Unit :=
  let (c1, outcome) := c.exit env exc
  (c1,
    match outcome with
    | .error e => .error (.inr e)
    | .ok suppress =>
      match exc with
      | none => .ok ()
      | some kv => if suppress then .ok () else .error (.inl kv))

/-- A compiled regular expression, abstracting the `re` collaborator the
spec treats as external: its `pattern` string and its `search` predicate
(`compiled.search(text)` truthiness). -/
structure PyRegex where
  pattern : String
  search : String → Bool

/-- The single test callback that `assert_raises_regex` registers, over an
exception value modelled by its `args` tuple of strings.  With no args it
fails with `"<kind> without message"` (the compiled pattern is never
searched); otherwise `args[0]` is searched and a non-match fails with
`"<text!r> does not match <pattern!r>"`. -/
def assert_raises_regex_test (excName excTypeRepr : String) (rgx : PyRegex)
    (msg_fmt : Fmt) (args : List String) : Except PyExc Unit :=
  match args with
  | [] =>
    let msg := excName ++ " without message"
    failFmt msg_fmt
      [("msg", CtxVal.ofStr msg), ("text", CtxVal.raw "None"),
       ("pattern", CtxVal.ofStr rgx.pattern),
       ("exc_type", CtxVal.raw excTypeRepr),
       ("exc_name", CtxVal.ofStr excName)]
  | text :: _ =>
    if rgx.search text then .ok ()
    else
      let msg := q text ++ " does not match " ++ q rgx.pattern
      failFmt msg_fmt
        [("msg", CtxVal.ofStr msg), ("text", CtxVal.ofStr text),
         ("pattern", CtxVal.ofStr rgx.pattern),
         ("exc_type", CtxVal.raw excTypeRepr),
         ("exc_name", CtxVal.ofStr excName)]

/-- `assert_raises_regex(exception, regex, msg_fmt)`: an
`AssertRaisesRegexContext` (its `format_message` additionally passes
`pattern` and `text=""`) with the pattern-matching callback registered. -/
def assert_raises_regex {K : Type} (env : ExcEnv K) (exception : K)
    (rgx : PyRegex) (msg_fmt : Fmt) : AssertRaisesContext K (List String) :=
  { exception := exception
    msg_fmt := msg_fmt
    exc_val := none
    tests := [assert_raises_regex_test (env.name exception)
      (env.typeRepr exception) rgx msg_fmt]
    fmt_extra := [("pattern", CtxVal.ofStr rgx.pattern),
      ("text", CtxVal.ofStr "")] }

/-- The ambient warning machinery, over abstract warning classes `K` and
captured warning records `R` (`warnings.WarningMessage` objects): the
subclass test, class rendering and a record's `category`. -/
structure WarnsEnv (K R : Type) where
  issubclass : K → K → Bool
  name : K → String
  typeRepr : K → String
  category : R → K

/-- State of an `AssertWarnsContext` object.  `regex_pattern` encodes the
dynamic class of the object: `none` for the base class created by
`assert_warns`, `some pattern` for the `AssertWarnsRegexContext` subclass,
whose `format_message` override is selected on it.  A test callback
returns the boolean the source requires of it. -/
structure AssertWarnsContext (K R : Type) where
  warning_class : K
  msg_fmt : Fmt
  tests : List (R → Bool)
  regex_pattern : Option String

/-- `AssertWarnsContext._is_expected_warning(warning)`: category subclass
check, then all registered tests. -/
def AssertWarnsContext.is_expected_warning {K R : Type} (env : WarnsEnv K R)
    (c : AssertWarnsContext K R) (w : R) : Bool :=
  if env.issubclass (env.category w) c.warning_class = false then false
  else c.tests.all (fun t => t w)

/-- The default message of `format_message`: the base class uses
`"<kind> not issued"`, the regex subclass `"no <kind> matching <pattern!r>
issued"`. -/
def AssertWarnsContext.default_msg {K R : Type} (env : WarnsEnv K R)
    (c : AssertWarnsContext K R) : String :=
  match c.regex_pattern with
  | none => env.name c.warning_class ++ " not issued"
  | some pat =>
    "no " ++ env.name c.warning_class ++ " matching " ++ q pat ++ " issued"

/-- `format_message` of the dynamic class of the context: the regex
subclass passes `pattern` in addition to `msg`, `exc_type`, `exc_name`. -/
def AssertWarnsContext.format_message {K R : Type} (env : WarnsEnv K R)
    (c : AssertWarnsContext K R) : Except PyExc String :=
  match c.regex_pattern with
  | none =>
    Fmt.format c.msg_fmt
      [("msg", CtxVal.ofStr (c.default_msg env)),
       ("exc_type", CtxVal.raw (env.typeRepr c.warning_class)),
       ("exc_name", CtxVal.ofStr (env.name c.warning_class))]
  | some pat =>
    Fmt.format c.msg_fmt
      [("msg", CtxVal.ofStr (c.default_msg env)),
       ("exc_type", CtxVal.raw (env.typeRepr c.warning_class)),
       ("exc_name", CtxVal.ofStr (env.name c.warning_class)),
       ("pattern", CtxVal.ofStr pat)]

/-- `AssertWarnsContext.__exit__`.  `warnings` is the buffer
(`self._warnings`) that the interception mechanism filled during the
scope.  The first component is the installed-flag of the interception
mechanism after exit: the source's first statement tears it down, before
and independently of the match check, so it is `false` in every case.
The second component is the outcome: the method returns `None` (never
suppresses, modelled `.ok false`) unless no captured record is expected,
in which case `fail(self.format_message())` raises. -/
def AssertWarnsContext.exit {K R : Type} (env : WarnsEnv K R)
    (c : AssertWarnsContext K R) (warnings : List R) :
    Bool × Except PyExc Bool :=
  (false,
    if warnings.any (c.is_expected_warning env) then .ok false
    else
      match c.format_message env with
      | .ok s => .error (.assertionError (failMsg (some s)))
      | .error e => .error e)

/-- `assert_warns(warning_type, msg_fmt)`: a base-class context with no
tests. -/
def assert_warns {K : Type} (R : Type) (warning_type : K) (msg_fmt : Fmt) :
    AssertWarnsContext K R :=
  ⟨warning_type, msg_fmt, [], none⟩

/-- `assert_warns_regex(warning_type, regex, msg_fmt)`: a regex-subclass
context whose single test searches the record's message text, via the
record-to-text rendering `msgStr` (Python's `str(warning.message)`). -/
def assert_warns_regex {K R : Type} (warning_type : K) (rgx : PyRegex)
    (msgStr : R → String) (msg_fmt : Fmt) : AssertWarnsContext K R :=
  ⟨warning_type, msg_fmt, [fun w => rgx.search (msgStr w)], some rgx.pattern⟩

/-- The `with` statement around an `AssertWarnsContext`: the block ran to
the end with buffer `warnings` and outcome `exc` (`some e` when it raised
`e`).  If `__exit__` raises, that exception propagates and the block's own
exception is replaced; otherwise the block's exception propagates
(`__exit__` never returns a truthy value).  The first component is the
installed-flag of the interception mechanism afterwards. -/
def runWarnsScope {K R E : Type} (env : WarnsEnv K R)
    (c : AssertWarnsContext K R) (warnings : List R) (exc : Option E) :
    Bool × Except (E ⊕ PyExc) Unit :=
  let (installed, outcome) := c.exit env warnings
  (installed,
    match outcome with
    | .error e => .error (.inr e)
    | .ok suppress =>
      match exc with
      | none => .ok ()
      | some e => if suppress then .ok () else .error (.inl e))

/-- Python values handled by the equality assertions: `None`, ints,
strings and dicts with string keys in insertion order (a Python dict also
iterates in insertion order). -/
inductive PyVal where
  | none
  | int (n : ℤ)
  | str (s : String)
  | dict (entries : List (String × PyVal))

mutual

/-- Python `repr` of a value; a dict renders its entries in insertion
order between braces. -/
def PyVal.reprPy : PyVal → String
  | .none => "None"
  | .int n => toString n
  | .str s => q s
  | .dict es => "\x7b" ++ String.intercalate ", " (reprEntries es) ++ "\x7d"

def reprEntries : List (String × PyVal) → List String
  | [] => []
  | (k, v) :: rest => (q k ++ ": " ++ PyVal.reprPy v) :: reprEntries rest

end

/-- Python `str` of a value: a string is itself, anything else renders as
its `repr`. -/
def PyVal.strPy : PyVal → String
  | .str s => s
  | v => v.reprPy

/-- Context value of a Python value: its `repr` and `str` renderings. -/
def CtxVal.ofPy (v : PyVal) : CtxVal := ⟨v.reprPy, v.strPy⟩

/-- Python truthiness of a value. -/
def PyVal.truthy : PyVal → Bool
  | .none => false
  | .int n => n != 0
  | .str s => s ≠ ""
  | .dict es => !es.isEmpty

mutual

/-- Python `==` on the embedded values.  Two dicts are equal when they
have the same number of keys and each entry of the first is present, with
an equal value, in the second. -/
def pyEq : PyVal → PyVal → Bool
  | .none, .none => true
  | .int a, .int b => a == b
  | .str a, .str b => a == b
  | .dict a, .dict b => a.length == b.length && pyEqEntries a b
  | _, _ => false
termination_by x _ => (sizeOf x, 1)
decreasing_by
  all_goals simp_wf
  all_goals first
  | exact Prod.Lex.right _ (by omega)
  | exact Prod.Lex.left _ _ (by omega)

def pyEqEntries : List (String × PyVal) → List (String × PyVal) → Bool
  | [], _ => true
  | (k, v) :: rest, b =>
    match b.lookup k with
    | Option.none => false
    | some w => pyEq v w && pyEqEntries rest b
termination_by l _ => (sizeOf l, 0)
decreasing_by
  all_goals simp_wf
  all_goals first
  | exact Prod.Lex.right _ (by omega)
  | exact Prod.Lex.left _ _ (by omega)

end

/-- Context value for a Python list of strings (its `str` and `repr`
renderings agree). -/
def CtxVal.ofStrList (l : List String) : CtxVal :=
  CtxVal.raw ("[" ++ String.intercalate ", " (l.map q) ++ "]")

/-- The keys of a dict, in insertion order. -/
def keysOf (d : List (String × PyVal)) : List String := d.map Prod.fst

/-- `list(first_keys - second_keys)`: the keys of `first` that are not
keys of `second`.  Dict keys are unique, so iteration order is the only
freedom of Python's set difference; insertion order is used here. -/
def missingKeys (first second : List (String × PyVal)) : List String :=
  (keysOf first).filter (fun k => !((keysOf second).contains k))

/-- The default key-mismatch message of `assert_dict_equal`: a single
missing/extra key is shown in `repr` form, several are shown sorted. -/
def dictKeyMsg (missing extra : List String) : String :=
  if missing ≠ [] then
    match missing with
    | [k] => "key " ++ q k ++ " missing from right dict"
    | _ => "keys " ++
        String.intercalate ", " ((missing.map q).mergeSort (fun a b => decide (a ≤ b))) ++
        " missing from right dict"
  else
    match extra with
    | [k] => "extra key " ++ q k ++ " in right dict"
    | _ => "extra keys " ++
        String.intercalate ", " ((extra.map q).mergeSort (fun a b => decide (a ≤ b))) ++
        " in right dict"

mutual

/-- `assert_equal(first, second, msg_fmt)`: two dicts are delegated to
`assert_dict_equal` (with `msg_fmt` as its `key_msg_fmt` and the default
as its `value_msg_fmt`), anything else is compared with `==`. -/
def assert_equal (first second : PyVal) (msg_fmt : Fmt) : Except PyExc Unit :=
  match first, second with
  | .dict d1, .dict d2 => assert_dict_equal d1 d2 msg_fmt defaultFmt
  | f, s =>
    if pyEq f s then .ok ()
    else
      let msg := f.reprPy ++ " != " ++ s.reprPy
      failFmt msg_fmt
        [("msg", CtxVal.ofStr msg), ("first", CtxVal.ofPy f),
         ("second", CtxVal.ofPy s)]
termination_by (sizeOf first, 2)
decreasing_by
  all_goals simp_wf
  all_goals exact Prod.Lex.left _ _ (by omega)

/-- `assert_dict_equal(first, second, key_msg_fmt, value_msg_fmt)`: a key
mismatch raises `AssertionError` with the key message (formatted through
`key_msg_fmt` unless that template is falsy), otherwise each entry of
`first` is compared in insertion order. -/
def assert_dict_equal (first second : List (String × PyVal))
    (key_msg_fmt value_msg_fmt : Fmt) : Except PyExc Unit :=
  let missing_keys := missingKeys first second
  let extra_keys := missingKeys second first
  if missing_keys ≠ [] ∨ extra_keys ≠ [] then
    let msg0 := dictKeyMsg missing_keys extra_keys
    match (if key_msg_fmt ≠ [] then
            Fmt.format key_msg_fmt
              [("msg", CtxVal.ofStr msg0),
               ("first", CtxVal.ofPy (.dict first)),
               ("second", CtxVal.ofPy (.dict second)),
               ("missing_keys", CtxVal.ofStrList missing_keys),
               ("extra_keys", CtxVal.ofStrList extra_keys)]
          else .ok msg0) with
    | .error e => .error e
    | .ok m => .error (.assertionError m)
  else dictValueLoop first second value_msg_fmt first
termination_by (sizeOf first, 1)
decreasing_by
  all_goals exact Prod.Lex.right _ (by omega)

/-- The `for key in first` loop of `assert_dict_equal`: for each entry the
per-key message is computed through `value_msg_fmt` (unless that template
is falsy), brace-escaped, and passed as the literal message template of a
recursive `assert_equal` on the two values; the first failing entry
raises.  The (unreachable after the key check) absence of a key from
`second` models Python's `KeyError` on `second[key]`. -/
def dictValueLoop (first second : List (String × PyVal))
    (value_msg_fmt : Fmt) (remaining : List (String × PyVal)) :
    Except PyExc Unit :=
  match remaining with
  | [] => .ok ()
  | (key, first_value) :: rest =>
    match second.lookup key with
    | Option.none => .error (.keyError key)
    | some second_value =>
      let msg0 := "key " ++ q key ++ " differs: " ++ first_value.reprPy ++
        " != " ++ second_value.reprPy
      match (if value_msg_fmt ≠ [] then
              Fmt.format value_msg_fmt
                [("msg", CtxVal.ofStr msg0),
                 ("first", CtxVal.ofPy (.dict first)),
                 ("second", CtxVal.ofPy (.dict second)),
                 ("key", CtxVal.ofStr key),
                 ("first_value", CtxVal.ofPy first_value),
                 ("second_value", CtxVal.ofPy second_value)]
            else .ok msg0) with
      | .error e => .error e
      | .ok m =>
        match assert_equal first_value second_value [FmtPart.lit m] with
        | .error e => .error e
        | .ok _ => dictValueLoop first second value_msg_fmt rest
termination_by (sizeOf remaining, 0)
decreasing_by
  all_goals simp_wf
  all_goals exact Prod.Lex.left _ _ (by omega)

end

/-- `assert_true(expr, msg_fmt)`: the source returns `None` when the
expression is truthy and fails otherwise. -/
def assert_true (expr : PyVal) (msg_fmt : Fmt) : Except PyExc Unit :=
  if expr.truthy then .ok ()
  else
    let msg := expr.reprPy ++ " is not truthy"
    failFmt msg_fmt [("msg", CtxVal.ofStr msg), ("expr", CtxVal.ofPy expr)]

/-- `assert_false(expr, msg_fmt)`. -/
def assert_false (expr : PyVal) (msg_fmt : Fmt) : Except PyExc Unit :=
  if expr.truthy then
    let msg := expr.reprPy ++ " is not falsy"
    failFmt msg_fmt [("msg", CtxVal.ofStr msg), ("expr", CtxVal.ofPy expr)]
  else .ok ()

/-- `assert_between(lower_bound, upper_bound, expr, msg_fmt)` over any
ordered value type, as the Python is duck-typed; `rep` and `st` are the
`repr` and `str` renderings of a value (the default message shows `expr`
in `repr` form and the bounds in `str` form). -/
def assert_between {α : Type} [LinearOrder α] (rep st : α → String)
    (lower_bound upper_bound expr : α) (msg_fmt : Fmt) :
    Except PyExc Unit :=
  if lower_bound ≤ expr ∧ expr ≤ upper_bound then .ok ()
  else
    let msg := rep expr ++ " is not between " ++ st lower_bound ++ " and " ++
      st upper_bound
    failFmt msg_fmt
      [("msg", CtxVal.ofStr msg),
       ("lower", ⟨rep lower_bound, st lower_bound⟩),
       ("upper", ⟨rep upper_bound, st upper_bound⟩),
       ("expr", ⟨rep expr, st expr⟩)]

/-- Python's rendering (`repr` and `str` agree on numbers) of the rational
numbers that stand in for the ints and one-decimal floats of the examples:
integers render bare, a fraction over 10 renders with one decimal digit. -/
def ratRepr (x : ℚ) : String :=
  if x.den = 1 then toString x.num
  else if x.den = 10 ∧ 0 ≤ x.num then
    toString (x.num / 10) ++ "." ++ toString (x.num % 10)
  else toString x.num ++ "/" ++ toString x.den

/-- Whether a value is a Python dict. -/
def PyVal.isDict : PyVal → Bool
  | .dict _ => true
  | _ => false

/-- A value is a faithful image of a Python value when no dict in it has a
repeated key, at any depth (Python dicts cannot repeat keys). -/
inductive NodupDeep : PyVal → Prop where
  | none : NodupDeep .none
  | int (n : ℤ) : NodupDeep (.int n)
  | str (s : String) : NodupDeep (.str s)
  | dict (es : List (String × PyVal)) (hk : (keysOf es).Nodup)
      (hv : ∀ p ∈ es, NodupDeep p.2) : NodupDeep (.dict es)

/-- The rational `49/10`, the float literal `4.9` of the example, as an
explicit fraction in lowest terms. -/
def ratFourPointNine : ℚ := ⟨49, 10, by decide, by decide⟩

/-! ### Concrete universes used by the closed witnesses -/

/-- A concrete exception-class universe: classes are identified by their
name and subclassing is plain equality (every class is a subclass of
itself, as in Python). -/
def strExcEnv : ExcEnv String :=
  ⟨fun a b => a == b, fun k => k, fun k => "<class " ++ q k ++ ">"⟩

/-- A concrete warning universe: a captured record is a pair of its
category name and its message text. -/
def strWarnsEnv : WarnsEnv String (String × String) :=
  ⟨fun a b => a == b, fun k => k, fun k => "<class " ++ q k ++ ">",
    Prod.fst⟩

/-- A concrete compiled regular expression: the pattern `"fo+"` matches a
text whenever `"fo"` occurs in it followed by optional `o`s; for the
witness inputs plain substring search on `"fo"` is the same predicate. -/
def rgxW : PyRegex :=
  ⟨"fo+", fun s => decide (List.IsInfix "fo".data s.data)⟩

/-- A context expecting `KeyError` whose first callback passes and whose
second raises an assertion failure. -/
def raisesCtxW : AssertRaisesContext String String :=
  ((assert_raises String "KeyError" defaultFmt).add_test
      (fun _ => Except.ok ())).add_test
    (fun v => Except.error (.assertionError (q "Hello" ++ " != " ++ q v)))

/-- The context built by
`assert_warns_regex(UserWarning, r"fo+", msg_fmt="{msg}")`,
with a record's message text taken from the second component. -/
def warnsRegexCtxW : AssertWarnsContext String (String × String) :=
  assert_warns_regex "UserWarning" rgxW Prod.snd defaultFmt

/-- The context built by `assert_warns(UserWarning, msg_fmt="{msg}")`. -/
def warnsCtxW : AssertWarnsContext String (String × String) :=
  assert_warns (String × String) "UserWarning" defaultFmt

/-! ### Helper lemmas -/

theorem str_ne_empty_iff (s : String) : s ≠ "" ↔ s.data ≠ [] := by
  constructor
  · intro h hdata
    exact h (by cases s; simp_all)
  · intro h hs
    exact h (by simp [hs])

theorem append_ne_empty_right (x y : String) (h : y ≠ "") : x ++ y ≠ "" := by
  rw [str_ne_empty_iff] at h ⊢
  intro hcontra
  rw [String.data_append] at hcontra
  exact h (List.append_eq_nil.mp hcontra).2

theorem append_ne_empty_left (x y : String) (h : x ≠ "") : x ++ y ≠ "" := by
  rw [str_ne_empty_iff] at h ⊢
  intro hcontra
  rw [String.data_append] at hcontra
  exact h (List.append_eq_nil.mp hcontra).1

theorem failMsg_some (m : String) (h : m ≠ "") : failMsg (some m) = m := by
  simp [failMsg, h]

theorem str_append_empty (s : String) : s ++ "" = s :=
  String.append_empty s

/-- Formatting the default template against a context whose first entry
binds `msg` yields exactly the bound default message: the identity law at
the formatter level. -/
theorem format_defaultFmt (d : String) (rest : List (String × CtxVal)) :
    Fmt.format defaultFmt (("msg", CtxVal.ofStr d) :: rest) = .ok d := by
  simp [defaultFmt, Fmt.format, List.lookup, CtxVal.render, CtxVal.ofStr,
    Except.map, str_append_empty]


theorem q_ne_empty (s : String) : q s ≠ "" :=
  append_ne_empty_right _ _ (by decide)

/-- Running the callbacks stops at the first raising one: callbacks before
it all pass, it raises, and its exception is the result. -/
theorem runTests_append_error {V : Type} (pre : List (V → Except PyExc Unit))
    (t : V → Except PyExc Unit) (post : List (V → Except PyExc Unit))
    (v : V) (e : PyExc) (hpre : ∀ t2 ∈ pre, t2 v = .ok ())
    (ht : t v = .error e) :
    runTests (pre ++ t :: post) v = .error e := by
  induction pre with
  | nil => simp [runTests, ht]
  | cons p ps ih =>
    have hp : p v = .ok () := hpre p (by simp)
    simp only [List.cons_append, runTests, hp]
    exact ih (fun t2 h => hpre t2 (by simp [h]))

/-! ### C1–C3, C8: the error-variant scoped matcher -/

/-- Claim C1: when the block raises an instance `v` of a subclass of the
expected exception class, `__exit__` stores `v`, runs the registered
callbacks in registration order on `v` stopping at the first that raises
(whose failure is the result), returns `True` (suppression) when all
callbacks pass, and afterwards `exc_val` returns exactly `v`. -/
theorem assertRaises_matching_exit {K V : Type} (env : ExcEnv K)
    (c : AssertRaisesContext K V) (ty : K) (v : V)
    (hsub : env.issubclass ty c.exception = true) :
    ((c.exit env (some (ty, v))).1 = { c with exc_val := some v })
  ∧ (runTests c.tests v = .ok () → (c.exit env (some (ty, v))).2 = .ok true)
  ∧ (∀ pre t post e, c.tests = pre ++ t :: post →
      (∀ t2 ∈ pre, t2 v = .ok ()) → t v = .error e →
      (c.exit env (some (ty, v))).2 = .error e)
  ∧ ((c.exit env (some (ty, v))).1.exc_val_prop = .ok v) := by
  refine ⟨?_, ?_, ?_, ?_⟩
  · cases hrt : runTests c.tests v <;>
      simp [AssertRaisesContext.exit, hsub, hrt]
  · intro h
    simp [AssertRaisesContext.exit, hsub, h]
  · intro pre t post e hts hpre ht
    have hrt : runTests c.tests v = .error e := by
      rw [hts]; exact runTests_append_error pre t post v e hpre ht
    simp [AssertRaisesContext.exit, hsub, hrt]
  · cases hrt : runTests c.tests v <;>
      simp [AssertRaisesContext.exit, AssertRaisesContext.exc_val_prop,
        hsub, hrt]

theorem assertRaises_matching_exit_witness :
    ((raisesCtxW.exit strExcEnv (some ("KeyError", "boom"))).2 =
      .error (.assertionError (q "Hello" ++ " != " ++ q "boom")))
  ∧ ((raisesCtxW.exit strExcEnv (some ("KeyError", "boom"))).1.exc_val_prop
      = .ok "boom") :=
  ⟨(assertRaises_matching_exit strExcEnv raisesCtxW "KeyError" "boom"
      (by decide)).2.2.1
      [fun _ => Except.ok ()]
      (fun v => Except.error (.assertionError (q "Hello" ++ " != " ++ q v)))
      [] _ rfl
      (by intro t2 h; rw [List.mem_singleton] at h; rw [h])
      rfl,
    (assertRaises_matching_exit strExcEnv raisesCtxW "KeyError" "boom"
      (by decide)).2.2.2⟩

/-- Claim C2: when the block raises nothing, `__exit__` raises an
`AssertionError` whose default message is the expected class's name
followed by `" not raised"`, and the format context of `format_message`
binds `exc_type` to the expected class and `exc_name` to its name (and
`msg` to the default message). -/
theorem assertRaises_not_raised {K V : Type} (env : ExcEnv K)
    (c : AssertRaisesContext K V) (hfmt : c.msg_fmt = defaultFmt) :
    (c.exit env none =
      (c, .error (.assertionError (env.name c.exception ++ " not raised"))))
  ∧ (∀ d, (c.fmt_ctx env d).lookup "msg" = some (CtxVal.ofStr d)
      ∧ (c.fmt_ctx env d).lookup "exc_type" =
          some (CtxVal.raw (env.typeRepr c.exception))
      ∧ (c.fmt_ctx env d).lookup "exc_name" =
          some (CtxVal.ofStr (env.name c.exception))) := by
  constructor
  · have hfm : c.format_message env (env.name c.exception ++ " not raised") =
        .ok (env.name c.exception ++ " not raised") := by
      rw [AssertRaisesContext.format_message, hfmt,
        AssertRaisesContext.fmt_ctx]
      exact format_defaultFmt _ _
    simp [AssertRaisesContext.exit, hfm,
      failMsg_some _ (append_ne_empty_right (env.name c.exception)
        " not raised" (by decide))]
  · intro d
    exact ⟨rfl, rfl, rfl⟩

theorem assertRaises_not_raised_witness :
    (assert_raises String "KeyError" defaultFmt).exit strExcEnv none =
      (assert_raises String "KeyError" defaultFmt,
        .error (.assertionError ("KeyError" ++ " not raised"))) :=
  (assertRaises_not_raised strExcEnv
    (assert_raises String "KeyError" defaultFmt) rfl).1

/-- Claim C3: when the block raises an instance of a class that is not a
subclass of the expected one, `__exit__` returns `False` without raising,
so the `with` statement propagates the original exception, type and value
unchanged. -/
theorem assertRaises_wrong_kind {K V : Type} (env : ExcEnv K)
    (c : AssertRaisesContext K V) (ty : K) (v : V)
    (hsub : env.issubclass ty c.exception = false) :
    (c.exit env (some (ty, v)) = ({ c with exc_val := some v }, .ok false))
  ∧ (runRaisesScope env c (some (ty, v)) =
      ({ c with exc_val := some v }, .error (.inl (ty, v)))) := by
  constructor
  · simp [AssertRaisesContext.exit, hsub]
  · simp [runRaisesScope, AssertRaisesContext.exit, hsub]

theorem assertRaises_wrong_kind_witness :
    runRaisesScope strExcEnv (assert_raises String "KeyError" defaultFmt)
      (some ("ValueError", "Wrong Class")) =
      ({ assert_raises String "KeyError" defaultFmt with
          exc_val := some "Wrong Class" },
        .error (.inl ("ValueError", "Wrong Class"))) :=
  (assertRaises_wrong_kind strExcEnv
    (assert_raises String "KeyError" defaultFmt) "ValueError" "Wrong Class"
    (by decide)).2

/-- Claim C8: reading the `exc_val` property while no exception value has
been captured — on a fresh context, before exit, and after an exit in
which no exception was raised — raises a `RuntimeError`, which is not an
`AssertionError` with any message. -/
theorem excVal_usage_error {K V : Type} (env : ExcEnv K)
    (c : AssertRaisesContext K V) (h : c.exc_val = none) :
    ((assert_raises V c.exception c.msg_fmt : AssertRaisesContext K V).exc_val
      = none)
  ∧ (c.exc_val_prop =
      .error (.runtimeError "must be called after leaving the context"))
  ∧ ((c.exit env none).1.exc_val_prop =
      .error (.runtimeError "must be called after leaving the context"))
  ∧ (∀ m, (PyExc.runtimeError "must be called after leaving the context")
      ≠ .assertionError m) := by
  refine ⟨rfl, ?_, ?_, ?_⟩
  · simp [AssertRaisesContext.exc_val_prop, h]
  · simp [AssertRaisesContext.exit, AssertRaisesContext.exc_val_prop, h]
  · intro m
    simp

theorem excVal_usage_error_witness :
    (assert_raises String "KeyError" defaultFmt :
        AssertRaisesContext String String).exc_val_prop =
      .error (.runtimeError "must be called after leaving the context") :=
  (excVal_usage_error strExcEnv
    (assert_raises String "KeyError" defaultFmt) rfl).2.1

/-! ### C7: the message-pattern specialization `assert_raises_regex` -/

/-- Claim C7: for an exception of the expected class, the registered
pattern test fails with `"<kind> without message"` when the exception has
no args (and the result does not depend on the search function, only on
the pattern string: no match is attempted); fails with
`"<text!r> does not match <pattern!r>"` when the first arg does not match;
and passes otherwise, in which case `__exit__` of the context built by
`assert_raises_regex` returns `True` and the scope exits without
failure. -/
theorem assertRaisesRegex_spec {K : Type} (env : ExcEnv K) (exception : K)
    (rgx : PyRegex) :
    (∀ rgx2 : PyRegex, rgx2.pattern = rgx.pattern →
      assert_raises_regex_test (env.name exception)
          (env.typeRepr exception) rgx defaultFmt [] =
        assert_raises_regex_test (env.name exception)
          (env.typeRepr exception) rgx2 defaultFmt [])
  ∧ (assert_raises_regex_test (env.name exception) (env.typeRepr exception)
        rgx defaultFmt [] =
      .error (.assertionError (env.name exception ++ " without message")))
  ∧ (∀ text rest, rgx.search text = false →
      assert_raises_regex_test (env.name exception) (env.typeRepr exception)
          rgx defaultFmt (text :: rest) =
        .error (.assertionError
          (q text ++ " does not match " ++ q rgx.pattern)))
  ∧ (∀ text rest, rgx.search text = true →
      assert_raises_regex_test (env.name exception) (env.typeRepr exception)
          rgx defaultFmt (text :: rest) = .ok ())
  ∧ (∀ ty text rest, env.issubclass ty exception = true →
      rgx.search text = true →
      ((assert_raises_regex env exception rgx defaultFmt).exit env
          (some (ty, text :: rest))).2 = .ok true) := by
  refine ⟨?_, ?_, ?_, ?_, ?_⟩
  · intro rgx2 hpat
    simp [assert_raises_regex_test, hpat]
  · rw [assert_raises_regex_test]
    rw [failFmt, format_defaultFmt]
    simp only [fail, failMsg_some _ (append_ne_empty_right
      (env.name exception) " without message" (by decide))]
  · intro text rest hns
    rw [assert_raises_regex_test]
    simp only [hns, Bool.false_eq_true, if_false]
    rw [failFmt, format_defaultFmt]
    simp only [fail, failMsg_some _ (append_ne_empty_right
      (q text ++ " does not match ") (q rgx.pattern)
      (q_ne_empty rgx.pattern))]
  · intro text rest hs
    simp [assert_raises_regex_test, hs]
  · intro ty text rest hsub hs
    simp [AssertRaisesContext.exit, assert_raises_regex, hsub, runTests,
      assert_raises_regex_test, hs]

theorem assertRaisesRegex_spec_witness :
    (assert_raises_regex_test "ValueError" (strExcEnv.typeRepr "ValueError")
        rgxW defaultFmt [] =
      .error (.assertionError ("ValueError" ++ " without message")))
  ∧ (assert_raises_regex_test "ValueError" (strExcEnv.typeRepr "ValueError")
        rgxW defaultFmt ["Generic Error"] =
      .error (.assertionError
        (q "Generic Error" ++ " does not match " ++ q "fo+")))
  ∧ (((assert_raises_regex strExcEnv "ValueError" rgxW defaultFmt).exit
        strExcEnv (some ("ValueError", ["Error foo 42"]))).2 = .ok true) :=
  ⟨(assertRaisesRegex_spec strExcEnv "ValueError" rgxW).2.1,
    (assertRaisesRegex_spec strExcEnv "ValueError" rgxW).2.2.1
      "Generic Error" [] (by decide),
    (assertRaisesRegex_spec strExcEnv "ValueError" rgxW).2.2.2.2
      "ValueError" "Error foo 42" [] (by decide) (by decide)⟩

/-! ### C4, C5: the advisory-variant scoped matcher -/

theorem warns_default_msg_ne_empty {K R : Type} (env : WarnsEnv K R)
    (c : AssertWarnsContext K R) : c.default_msg env ≠ "" := by
  rw [AssertWarnsContext.default_msg]
  cases c.regex_pattern with
  | none => exact append_ne_empty_right _ " not issued" (by decide)
  | some pat => exact append_ne_empty_right _ " issued" (by decide)

theorem warns_format_message_default {K R : Type} (env : WarnsEnv K R)
    (c : AssertWarnsContext K R) (hfmt : c.msg_fmt = defaultFmt) :
    c.format_message env = .ok (c.default_msg env) := by
  rw [AssertWarnsContext.format_message]
  cases c.regex_pattern with
  | none => rw [hfmt]; exact format_defaultFmt _ _
  | some pat => rw [hfmt]; exact format_defaultFmt _ _

/-- Amended claim C4: on exit the interception mechanism is uninstalled in
every case, and (with the default template) `__exit__` raises an
`AssertionError` carrying the variant's default message — `"<kind> not
issued"` for `assert_warns`, `"no <kind> matching <pattern!r> issued"` for
`assert_warns_regex` — exactly when no captured record both has a category
that is a subclass of the expected class and passes every registered test;
when some captured record matches, it returns `None` without raising. -/
theorem warns_exit_spec {K R : Type} (env : WarnsEnv K R)
    (c : AssertWarnsContext K R) (ws : List R)
    (hfmt : c.msg_fmt = defaultFmt) :
    ((c.exit env ws).1 = false)
  ∧ ((c.exit env ws).2 =
        .error (.assertionError (c.default_msg env)) ↔
      ws.any (c.is_expected_warning env) = false)
  ∧ (ws.any (c.is_expected_warning env) = true →
      (c.exit env ws).2 = .ok false) := by
  refine ⟨rfl, ?_, ?_⟩
  · cases ha : ws.any (c.is_expected_warning env) with
    | true => simp [AssertWarnsContext.exit, ha]
    | false =>
      simp [AssertWarnsContext.exit, ha,
        warns_format_message_default env c hfmt,
        failMsg_some _ (warns_default_msg_ne_empty env c)]
  · intro ha
    simp [AssertWarnsContext.exit, ha]

/-- Counterexample to claim C4 as stated: on an `assert_warns_regex` scope
with no captured warnings, the raised default message is
`"no UserWarning matching 'fo+' issued"`, not `"UserWarning not issued"`
as the claim requires of every `assert_warns or assert_warns_regex`
scope. -/
theorem warns_regex_exit_message_counterexample :
    ((warnsRegexCtxW.exit strWarnsEnv []).2 =
      .error (.assertionError
        ("no UserWarning matching " ++ q "fo+" ++ " issued")))
  ∧ ((warnsRegexCtxW.exit strWarnsEnv []).2 ≠
      .error (.assertionError "UserWarning not issued")) := by
  have h1 : (warnsRegexCtxW.exit strWarnsEnv []).2 =
      .error (.assertionError
        ("no UserWarning matching " ++ q "fo+" ++ " issued")) := rfl
  refine ⟨h1, ?_⟩
  rw [h1]
  intro h
  have h2 := PyExc.assertionError.inj (Except.error.inj h)
  exact absurd h2 (by decide)

theorem warns_exit_spec_witness :
    (((assert_warns (String × String) "UserWarning" defaultFmt).exit
        strWarnsEnv []).2 =
      .error (.assertionError ("UserWarning" ++ " not issued")))
  ∧ (((assert_warns (String × String) "UserWarning" defaultFmt).exit
        strWarnsEnv [("UserWarning", "foo")]).2 = .ok false) :=
  ⟨(warns_exit_spec strWarnsEnv
      (assert_warns (String × String) "UserWarning" defaultFmt) [] rfl).2.1.mpr
      (by decide),
    (warns_exit_spec strWarnsEnv
      (assert_warns (String × String) "UserWarning" defaultFmt)
      [("UserWarning", "foo")] rfl).2.2 (by decide)⟩

/-- Amended claim C5: an exception raised inside an advisory scope
propagates to the caller unchanged when at least one captured record
matches the expectation; when none does, `__exit__`'s own
`AssertionError` (the "not issued" failure) is raised while the block's
exception is being handled and replaces it, so the original exception
does not reach the caller.  The interception mechanism is uninstalled in
both cases. -/
theorem warns_scope_exception_spec {K R E : Type} (env : WarnsEnv K R)
    (c : AssertWarnsContext K R) (ws : List R) (e : E)
    (hfmt : c.msg_fmt = defaultFmt) :
    (ws.any (c.is_expected_warning env) = true →
      runWarnsScope env c ws (some e) = (false, .error (.inl e)))
  ∧ (ws.any (c.is_expected_warning env) = false →
      runWarnsScope env c ws (some e) =
        (false, .error (.inr (.assertionError (c.default_msg env))))) := by
  constructor
  · intro ha
    simp [runWarnsScope, AssertWarnsContext.exit, ha]
  · intro ha
    simp [runWarnsScope, AssertWarnsContext.exit, ha,
      warns_format_message_default env c hfmt,
      failMsg_some _ (warns_default_msg_ne_empty env c)]

/-- Counterexample to claim C5 as stated: a block that raises
`"ValueError: boom"` inside an `assert_warns(UserWarning)` scope in which
no matching warning was captured does not propagate that exception — the
scope's own `AssertionError` replaces it. -/
theorem warns_unrelated_exception_counterexample :
    (runWarnsScope (E := String) strWarnsEnv warnsCtxW []
        (some "ValueError: boom") =
      (false, .error (.inr (.assertionError "UserWarning not issued"))))
  ∧ (runWarnsScope (E := String) strWarnsEnv warnsCtxW []
        (some "ValueError: boom") ≠
      (false, .error (.inl "ValueError: boom"))) := by
  have h1 : runWarnsScope (E := String) strWarnsEnv warnsCtxW []
      (some "ValueError: boom") =
      (false, .error (.inr (.assertionError "UserWarning not issued"))) := rfl
  refine ⟨h1, ?_⟩
  rw [h1]
  intro h
  have h2 := (Prod.mk.injEq _ _ _ _).mp h
  have h3 := Except.error.inj h2.2
  exact Sum.inr_ne_inl h3

theorem warns_scope_exception_spec_witness :
    runWarnsScope (E := String) strWarnsEnv warnsCtxW
      [("UserWarning", "a foot")] (some "ValueError: boom") =
      (false, .error (.inl "ValueError: boom")) :=
  (warns_scope_exception_spec strWarnsEnv warnsCtxW
    [("UserWarning", "a foot")] "ValueError: boom" rfl).1 (by decide)

/-! ### C9: `assert_between` -/

theorem assert_between_default_eq {α : Type} [LinearOrder α]
    (rep st : α → String) (lower upper expr : α) :
    assert_between rep st lower upper expr defaultFmt =
      if lower ≤ expr ∧ expr ≤ upper then .ok ()
      else .error (.assertionError (rep expr ++ " is not between " ++
        st lower ++ " and " ++ st upper)) := by
  by_cases h : lower ≤ expr ∧ expr ≤ upper
  · simp [assert_between, h]
  · rw [assert_between, if_neg h, if_neg h]
    rw [failFmt, format_defaultFmt]
    simp only [fail, failMsg_some _ (append_ne_empty_left
      (rep expr ++ " is not between " ++ st lower ++ " and ") (st upper)
      (append_ne_empty_right
        (rep expr ++ " is not between " ++ st lower) " and " (by decide)))]

/-- Claim C9: `assert_between(lower, upper, expr)` passes exactly when
`lower <= expr <= upper` (bounds inclusive) and otherwise raises an
`AssertionError` with default message
`"<expr!r> is not between <lower> and <upper>"`; in particular
`assert_between(5, 15, 4.9)` raises
`AssertionError: 4.9 is not between 5 and 15`. -/
theorem assert_between_spec {α : Type} [LinearOrder α]
    (rep st : α → String) (lower upper expr : α) :
    (assert_between rep st lower upper expr defaultFmt =
      if lower ≤ expr ∧ expr ≤ upper then .ok ()
      else .error (.assertionError (rep expr ++ " is not between " ++
        st lower ++ " and " ++ st upper)))
  ∧ (assert_between ratRepr ratRepr (5 : ℚ) 15 ratFourPointNine defaultFmt =
      .error (.assertionError "4.9 is not between 5 and 15")) := by
  constructor
  · exact assert_between_default_eq rep st lower upper expr
  · rw [assert_between_default_eq ratRepr ratRepr 5 15 ratFourPointNine,
      if_neg (by decide)]
    congr 1

/-! ### C6: the `msg` identity law -/

/-- The shared failure path evaluated at the default template: the raised
message is exactly the computed default message. -/
theorem failFmt_default (msg : String) (h : msg ≠ "")
    (rest : List (String × CtxVal)) :
    failFmt defaultFmt (("msg", CtxVal.ofStr msg) :: rest) =
      .error (.assertionError msg) := by
  rw [failFmt, format_defaultFmt]
  simp only [fail, failMsg_some _ h]

theorem assert_equal_nondict_eq (f s : PyVal)
    (h : (f.isDict && s.isDict) = false) :
    assert_equal f s defaultFmt =
      if pyEq f s then .ok ()
      else .error (.assertionError (f.reprPy ++ " != " ++ s.reprPy)) := by
  unfold assert_equal
  split
  · rename_i d1 d2
    simp [PyVal.isDict] at h
  · by_cases hpe : pyEq f s
    · simp [hpe]
    · simp only [hpe, Bool.false_eq_true, if_false]
      exact failFmt_default _ (append_ne_empty_left _ s.reprPy
        (append_ne_empty_right f.reprPy " != " (by decide))) _

/-- Claim C6: the format context of every embedded assertion binds `msg`
to the computed default message, and with the default template `"{msg}"`
every failure carries exactly that default message: the identity law, at
the formatter itself, at the predicate assertions (`assert_true`,
`assert_false`, `assert_equal` on non-dicts, `assert_between`) and at the
`format_message` of both scoped matchers. -/
theorem msg_fmt_identity_law {K V R : Type} {α : Type} [LinearOrder α]
    (rep st : α → String) (env : ExcEnv K) (wenv : WarnsEnv K R)
    (rc : AssertRaisesContext K V) (wc : AssertWarnsContext K R)
    (d : String) :
    (∀ dm rest, Fmt.format defaultFmt (("msg", CtxVal.ofStr dm) :: rest) =
      .ok dm)
  ∧ (∀ expr : PyVal, assert_true expr defaultFmt =
      if expr.truthy then .ok ()
      else .error (.assertionError (expr.reprPy ++ " is not truthy")))
  ∧ (∀ expr : PyVal, assert_false expr defaultFmt =
      if expr.truthy then
        .error (.assertionError (expr.reprPy ++ " is not falsy"))
      else .ok ())
  ∧ (∀ f s : PyVal, (f.isDict && s.isDict) = false →
      assert_equal f s defaultFmt =
        if pyEq f s then .ok ()
        else .error (.assertionError (f.reprPy ++ " != " ++ s.reprPy)))
  ∧ (∀ lower upper expr : α,
      assert_between rep st lower upper expr defaultFmt =
        if lower ≤ expr ∧ expr ≤ upper then .ok ()
        else .error (.assertionError (rep expr ++ " is not between " ++
          st lower ++ " and " ++ st upper)))
  ∧ ((rc.fmt_ctx env d).lookup "msg" = some (CtxVal.ofStr d))
  ∧ (rc.msg_fmt = defaultFmt → rc.format_message env d = .ok d)
  ∧ (wc.msg_fmt = defaultFmt →
      wc.format_message wenv = .ok (wc.default_msg wenv)) := by
  refine ⟨fun dm rest => format_defaultFmt dm rest, ?_, ?_,
    assert_equal_nondict_eq,
    fun lower upper expr => assert_between_default_eq rep st lower upper expr,
    rfl, ?_, fun h => warns_format_message_default wenv wc h⟩
  · intro expr
    by_cases h : expr.truthy
    · simp [assert_true, h]
    · simp only [assert_true, h, Bool.false_eq_true, if_false]
      exact failFmt_default _ (append_ne_empty_right expr.reprPy
        " is not truthy" (by decide)) _
  · intro expr
    by_cases h : expr.truthy
    · simp only [assert_false, h, if_true]
      exact failFmt_default _ (append_ne_empty_right expr.reprPy
        " is not falsy" (by decide)) _
    · simp [assert_false, h]
  · intro h
    rw [AssertRaisesContext.format_message, h, AssertRaisesContext.fmt_ctx]
    exact format_defaultFmt _ _

theorem msg_fmt_identity_law_witness :
    (assert_true (.str "") defaultFmt =
      .error (.assertionError (q "" ++ " is not truthy")))
  ∧ ((assert_raises String "KeyError" defaultFmt :
        AssertRaisesContext String String).format_message strExcEnv
        "KeyError not raised" = .ok "KeyError not raised") := by
  have h := msg_fmt_identity_law (K := String) (V := String)
    (R := String × String) (α := ℚ) ratRepr ratRepr strExcEnv strWarnsEnv
    (assert_raises String "KeyError" defaultFmt) warnsCtxW
    "KeyError not raised"
  refine ⟨?_, h.2.2.2.2.2.2.1 rfl⟩
  rw [h.2.1 (.str "")]
  rfl

/-! ### C10: `assert_equal` on dictionaries -/

theorem lookup_mem {d : List (String × PyVal)} {k : String} {v : PyVal}
    (h : d.lookup k = some v) : (k, v) ∈ d := by
  induction d with
  | nil => simp [List.lookup] at h
  | cons p rest ih =>
    obtain ⟨a, b⟩ := p
    simp only [List.lookup] at h
    cases hk : (k == a) with
    | false =>
      rw [hk] at h
      exact List.mem_cons_of_mem _ (ih h)
    | true =>
      rw [hk] at h
      simp only [Option.some.injEq] at h
      have : k = a := by simpa using hk
      subst this
      subst h
      exact List.mem_cons_self _ _

theorem lookup_of_mem_nodup {d : List (String × PyVal)}
    (hn : (keysOf d).Nodup) {k : String} {v : PyVal} (hm : (k, v) ∈ d) :
    d.lookup k = some v := by
  induction d with
  | nil => simp at hm
  | cons p rest ih =>
    obtain ⟨a, b⟩ := p
    rw [keysOf] at hn
    simp only [List.map_cons, List.nodup_cons] at hn
    rcases List.mem_cons.mp hm with heq | hmem
    · obtain ⟨rfl, rfl⟩ := Prod.mk.injEq .. |>.mp heq.symm |>.imp Eq.symm Eq.symm
      simp [List.lookup]
    · have hk : k ≠ a := by
        intro hka
        subst hka
        exact hn.1 (List.mem_map.mpr ⟨(k, v), hmem, rfl⟩)
      have hba : (k == a) = false := by simpa using hk
      simp only [List.lookup, hba]
      exact ih hn.2 hmem

theorem pyEqEntries_lookup {d1 d2 : List (String × PyVal)}
    (h : pyEqEntries d1 d2 = true) {k : String} {v : PyVal}
    (hm : (k, v) ∈ d1) :
    ∃ w, d2.lookup k = some w ∧ pyEq v w = true := by
  induction d1 with
  | nil => simp at hm
  | cons p rest ih =>
    obtain ⟨a, b⟩ := p
    rw [pyEqEntries] at h
    cases hlk : d2.lookup a with
    | none => rw [hlk] at h; simp at h
    | some w =>
      rw [hlk] at h
      simp only [Bool.and_eq_true] at h
      rcases List.mem_cons.mp hm with heq | hmem
      · obtain ⟨rfl, rfl⟩ := Prod.mk.injEq .. |>.mp heq.symm
          |>.imp Eq.symm Eq.symm
        exact ⟨w, hlk, h.1⟩
      · exact ih h.2 hmem

theorem sizeOf_val_lt_dict {k : String} {v : PyVal}
    {d : List (String × PyVal)} (h : (k, v) ∈ d) :
    sizeOf v < sizeOf (PyVal.dict d) := by
  have h1 := List.sizeOf_lt_of_mem h
  have h2 : sizeOf (k, v) = 1 + sizeOf k + sizeOf v := by simp
  have h3 : sizeOf (PyVal.dict d) = 1 + sizeOf d := by simp
  omega

theorem missingKeys_eq_nil_of_pyEq {d1 d2 : List (String × PyVal)}
    (hlen : d1.length = d2.length)
    (hn1 : (keysOf d1).Nodup) (hn2 : (keysOf d2).Nodup)
    (hent : pyEqEntries d1 d2 = true) :
    missingKeys d1 d2 = [] ∧ missingKeys d2 d1 = [] := by
  have hsub : ∀ k ∈ keysOf d1, k ∈ keysOf d2 := by
    intro k hk
    obtain ⟨⟨k2, v⟩, hmem, hfst⟩ := List.mem_map.mp hk
    subst hfst
    obtain ⟨w, hlk, _⟩ := pyEqEntries_lookup hent hmem
    exact List.mem_map.mpr ⟨(k2, w), lookup_mem hlk, rfl⟩
  have hfin : (keysOf d1).toFinset = (keysOf d2).toFinset := by
    apply Finset.eq_of_subset_of_card_le
    · intro k hk
      exact List.mem_toFinset.mpr (hsub k (List.mem_toFinset.mp hk))
    · rw [List.toFinset_card_of_nodup hn1, List.toFinset_card_of_nodup hn2]
      simp [keysOf, hlen]
  have hsub2 : ∀ k ∈ keysOf d2, k ∈ keysOf d1 := by
    intro k hk
    exact List.mem_toFinset.mp (hfin ▸ List.mem_toFinset.mpr hk)
  constructor <;> rw [missingKeys, List.filter_eq_nil_iff]
  · intro k hk
    simp [hsub k hk]
  · intro k hk
    simp [hsub2 k hk]

theorem assert_equal_dict_eq (d1 d2 : List (String × PyVal)) (fmt : Fmt) :
    assert_equal (.dict d1) (.dict d2) fmt =
      assert_dict_equal d1 d2 fmt defaultFmt := by
  unfold assert_equal
  rfl

theorem assert_equal_ok_of_pyEq_nondict (f s : PyVal) (fmt : Fmt)
    (h : (f.isDict && s.isDict) = false) (hpe : pyEq f s = true) :
    assert_equal f s fmt = .ok () := by
  unfold assert_equal
  split
  · rename_i d1 d2
    simp [PyVal.isDict] at h
  · simp [hpe]

/-- Values equal under Python `==` (with well-formed dicts) never fail
`assert_equal`, whatever the message template. -/
theorem assert_equal_ok_of_pyEq :
    ∀ (n : ℕ) (f s : PyVal) (fmt : Fmt), sizeOf f ≤ n →
      NodupDeep f → NodupDeep s → pyEq f s = true →
      assert_equal f s fmt = .ok () := by
  intro n
  induction n with
  | zero =>
    intro f s fmt hsz _ _ _
    exact absurd hsz (by cases f <;> simp)
  | succ n ih =>
    intro f s fmt hsz hf hs hpe
    by_cases hd : (f.isDict && s.isDict) = true
    · rcases f with _ | m | st1 | d1 <;> rcases s with _ | m2 | st2 | d2 <;>
        simp only [PyVal.isDict, Bool.and_self, Bool.false_and,
          Bool.and_false, Bool.true_and, Bool.false_eq_true] at hd
      rw [pyEq] at hpe
      simp only [Bool.and_eq_true, beq_iff_eq] at hpe
      obtain ⟨hlen, hent⟩ := hpe
      cases hf with | dict _ hn1 hv1 =>
      cases hs with | dict _ hn2 hv2 =>
      obtain ⟨hm1, hm2⟩ := missingKeys_eq_nil_of_pyEq hlen hn1 hn2 hent
      rw [assert_equal_dict_eq]
      unfold assert_dict_equal
      simp only [hm1, hm2, ne_eq, not_true_eq_false, or_self, if_false]
      have hloop : ∀ rem : List (String × PyVal), (∀ p ∈ rem, p ∈ d1) →
          dictValueLoop d1 d2 defaultFmt rem = .ok () := by
        intro rem
        induction rem with
        | nil => intro _; rw [dictValueLoop]
        | cons p rest ihr =>
          intro hsubm
          obtain ⟨k, v⟩ := p
          have hmem : (k, v) ∈ d1 := hsubm _ (List.mem_cons_self _ _)
          obtain ⟨w, hlk, hvw⟩ := pyEqEntries_lookup hent hmem
          rw [dictValueLoop]
          simp only [hlk]
          rw [if_pos (show defaultFmt ≠ [] by decide), format_defaultFmt]
          have hszv : sizeOf v ≤ n := by
            have h1 := sizeOf_val_lt_dict hmem
            have h2 : sizeOf (PyVal.dict d1) ≤ n + 1 := hsz
            omega
          have hok := ih v w
            [FmtPart.lit ("key " ++ q k ++ " differs: " ++ v.reprPy ++
              " != " ++ w.reprPy)] hszv (hv1 (k, v) hmem)
            (hv2 (k, w) (lookup_mem hlk)) hvw
          have hrest := ihr (fun p hp => hsubm p (List.mem_cons_of_mem _ hp))
          simp [hok, hrest]
      exact hloop d1 (fun p hp => hp)
    · exact assert_equal_ok_of_pyEq_nondict f s fmt (by simpa using hd) hpe

theorem format_lit (m : String) (ctx : List (String × CtxVal)) :
    Fmt.format [FmtPart.lit m] ctx = .ok m := by
  simp [Fmt.format, Except.map, str_append_empty]

/-- A failing `assert_equal` on non-dicts with an escaped literal message
template (the shape `assert_dict_equal`'s value loop passes) raises
exactly that literal message. -/
theorem assert_equal_lit_error (f s : PyVal) (m : String) (hm : m ≠ "")
    (hnd : (f.isDict && s.isDict) = false) (hne : pyEq f s = false) :
    assert_equal f s [FmtPart.lit m] = .error (.assertionError m) := by
  unfold assert_equal
  split
  · rename_i d1 d2
    simp [PyVal.isDict] at hnd
  · simp only [hne, Bool.false_eq_true, if_false]
    rw [failFmt, format_lit]
    simp only [fail, failMsg_some _ hm]

/-- When the key sets agree, `assert_dict_equal` proceeds to the
per-entry value loop. -/
theorem assert_dict_equal_values (d1 d2 : List (String × PyVal))
    (kf vf : Fmt) (h1 : missingKeys d1 d2 = []) (h2 : missingKeys d2 d1 = []) :
    assert_dict_equal d1 d2 kf vf = dictValueLoop d1 d2 vf d1 := by
  unfold assert_dict_equal
  simp [h1, h2]

theorem assert_dict_equal_key_mismatch (d1 d2 : List (String × PyVal))
    (h : missingKeys d1 d2 ≠ [] ∨ missingKeys d2 d1 ≠ []) :
    assert_dict_equal d1 d2 defaultFmt defaultFmt =
      .error (.assertionError
        (dictKeyMsg (missingKeys d1 d2) (missingKeys d2 d1))) := by
  unfold assert_dict_equal
  rw [if_pos h]
  simp only [if_pos (show defaultFmt ≠ ([] : Fmt) by decide),
    format_defaultFmt]

theorem dictValueLoop_skip (d1 d2 : List (String × PyVal)) (k : String)
    (fv sv : PyVal) (rest : List (String × PyVal))
    (hlk : d2.lookup k = some sv) (hn1 : NodupDeep fv) (hn2 : NodupDeep sv)
    (heq : pyEq fv sv = true) :
    dictValueLoop d1 d2 defaultFmt ((k, fv) :: rest) =
      dictValueLoop d1 d2 defaultFmt rest := by
  rw [dictValueLoop]
  simp only [hlk]
  rw [if_pos (show defaultFmt ≠ ([] : Fmt) by decide), format_defaultFmt]
  have hok := assert_equal_ok_of_pyEq (sizeOf fv) fv sv
    [FmtPart.lit ("key " ++ q k ++ " differs: " ++ fv.reprPy ++ " != " ++
      sv.reprPy)] le_rfl hn1 hn2 heq
  simp [hok]

theorem dictValueLoop_first_diff (d1 d2 : List (String × PyVal)) (k : String)
    (fv sv : PyVal) (rest : List (String × PyVal))
    (hlk : d2.lookup k = some sv)
    (hnd : (fv.isDict && sv.isDict) = false) (hne : pyEq fv sv = false) :
    dictValueLoop d1 d2 defaultFmt ((k, fv) :: rest) =
      .error (.assertionError ("key " ++ q k ++ " differs: " ++
        fv.reprPy ++ " != " ++ sv.reprPy)) := by
  rw [dictValueLoop]
  simp only [hlk]
  rw [if_pos (show defaultFmt ≠ ([] : Fmt) by decide), format_defaultFmt]
  have herr := assert_equal_lit_error fv sv
    ("key " ++ q k ++ " differs: " ++ fv.reprPy ++ " != " ++ sv.reprPy)
    (append_ne_empty_left _ sv.reprPy (append_ne_empty_right _ " != "
      (by decide))) hnd hne
  simp [herr]

/-- Amended claim C10: for two dict arguments `assert_equal` delegates to
`assert_dict_equal` instead of comparing with `==`.  A key mismatch
raises the key-mismatch message (`"key 'foo' missing from right dict"`
for one missing key, `"extra key ... in right dict"` for an extra one),
never `"<first> != <second>"`.  With agreeing key sets the entries of the
first dict are compared in insertion order — equal values (under `==`,
dicts well-formed) are skipped, and the first differing entry raises; if
its values are not both dicts, the message is
`"key '<k>' differs: <first_value!r> != <second_value!r>"`, and if both
are dicts the comparison recurses, so the reported key is the differing
key at the deepest level rather than the outer key.  Dicts that are `==`
raise nothing. -/
theorem assert_equal_dict_spec :
    (∀ d1 d2 fmt, assert_equal (.dict d1) (.dict d2) fmt =
        assert_dict_equal d1 d2 fmt defaultFmt)
  ∧ (∀ d1 d2, missingKeys d1 d2 ≠ [] ∨ missingKeys d2 d1 ≠ [] →
      assert_dict_equal d1 d2 defaultFmt defaultFmt =
        .error (.assertionError
          (dictKeyMsg (missingKeys d1 d2) (missingKeys d2 d1))))
  ∧ (∀ k, dictKeyMsg [k] [] = "key " ++ q k ++ " missing from right dict")
  ∧ (∀ k, dictKeyMsg [] [k] = "extra key " ++ q k ++ " in right dict")
  ∧ (∀ f s fmt, NodupDeep f → NodupDeep s → pyEq f s = true →
      assert_equal f s fmt = .ok ())
  ∧ (∀ d1 d2 k fv sv rest, d2.lookup k = some sv →
      NodupDeep fv → NodupDeep sv → pyEq fv sv = true →
      dictValueLoop d1 d2 defaultFmt ((k, fv) :: rest) =
        dictValueLoop d1 d2 defaultFmt rest)
  ∧ (∀ d1 d2 k fv sv rest, d2.lookup k = some sv →
      (fv.isDict && sv.isDict) = false → pyEq fv sv = false →
      dictValueLoop d1 d2 defaultFmt ((k, fv) :: rest) =
        .error (.assertionError ("key " ++ q k ++ " differs: " ++
          fv.reprPy ++ " != " ++ sv.reprPy))) := by
  refine ⟨assert_equal_dict_eq, assert_dict_equal_key_mismatch, ?_, ?_,
    ?_, ?_, ?_⟩
  · intro k
    simp [dictKeyMsg]
  · intro k
    simp [dictKeyMsg]
  · intro f s fmt hn1 hn2 hpe
    exact assert_equal_ok_of_pyEq (sizeOf f) f s fmt le_rfl hn1 hn2 hpe
  · intro d1 d2 k fv sv rest hlk hn1 hn2 heq
    exact dictValueLoop_skip d1 d2 k fv sv rest hlk hn1 hn2 heq
  · intro d1 d2 k fv sv rest hlk hnd hne
    exact dictValueLoop_first_diff d1 d2 k fv sv rest hlk hnd hne

/-- Counterexample to claim C10 as stated: comparing the nested dicts
`{"a": {"x": 1}}` and `{"a": {"x": 2}}` — whose key sets agree and whose
first (and only) differing key is `"a"` — produces the message
`"key 'x' differs: 1 != 2"` from the nested comparison, which is not the
message naming the first differing key `"a"` and its two dict values, and
does not mention `'a'` at all. -/
theorem assert_equal_nested_dict_counterexample :
    (assert_equal (.dict [("a", .dict [("x", .int 1)])])
        (.dict [("a", .dict [("x", .int 2)])]) defaultFmt =
      .error (.assertionError ("key " ++ q "x" ++ " differs: 1 != 2")))
  ∧ ("key " ++ q "x" ++ " differs: 1 != 2" ≠
      "key " ++ q "a" ++ " differs: " ++
        (PyVal.dict [("x", PyVal.int 1)]).reprPy ++ " != " ++
        (PyVal.dict [("x", PyVal.int 2)]).reprPy)
  ∧ ¬ List.IsInfix (q "a").data
      ("key " ++ q "x" ++ " differs: 1 != 2").data := by
  refine ⟨?_, ?_, by decide⟩
  · rw [assert_equal_dict_eq,
      assert_dict_equal_values _ _ _ _ (by decide) (by decide)]
    rw [dictValueLoop]
    simp only [show List.lookup "a" [("a", PyVal.dict [("x", PyVal.int 2)])] =
        some (PyVal.dict [("x", PyVal.int 2)]) from rfl,
      if_pos (show defaultFmt ≠ ([] : Fmt) by decide), format_defaultFmt]
    have hinner : assert_equal (.dict [("x", PyVal.int 1)])
        (.dict [("x", PyVal.int 2)])
        [FmtPart.lit ("key " ++ q "a" ++ " differs: " ++
          (PyVal.dict [("x", PyVal.int 1)]).reprPy ++ " != " ++
          (PyVal.dict [("x", PyVal.int 2)]).reprPy)] =
        .error (.assertionError ("key " ++ q "x" ++ " differs: " ++
          (PyVal.int 1).reprPy ++ " != " ++ (PyVal.int 2).reprPy)) := by
      rw [assert_equal_dict_eq,
        assert_dict_equal_values _ _ _ _ (by decide) (by decide)]
      exact dictValueLoop_first_diff _ _ "x" (.int 1) (.int 2) [] rfl
        (by decide) (by simp [pyEq])
    simp only [hinner]
    simp only [Except.error.injEq, PyExc.assertionError.injEq, PyVal.reprPy]
    decide
  · simp only [PyVal.reprPy, reprEntries]
    decide

theorem assert_equal_dict_spec_witness :
    (assert_dict_equal [("foo", PyVal.int 5)] [] defaultFmt defaultFmt =
      .error (.assertionError
        ("key " ++ q "foo" ++ " missing from right dict")))
  ∧ (assert_equal (.dict [("a", PyVal.int 1), ("b", PyVal.int 2)])
      (.dict [("b", PyVal.int 2), ("a", PyVal.int 1)]) defaultFmt =
        .ok ()) := by
  constructor
  · have h := assert_equal_dict_spec.2.1 [("foo", PyVal.int 5)] []
      (Or.inl (by decide))
    rw [h, show missingKeys [("foo", PyVal.int 5)] [] = ["foo"] from rfl,
      show missingKeys [] [("foo", PyVal.int 5)] = [] from rfl,
      assert_equal_dict_spec.2.2.1 "foo"]
  · refine assert_equal_dict_spec.2.2.2.2.1 _ _ defaultFmt ?_ ?_ ?_
    · refine NodupDeep.dict _ (by decide) ?_
      intro p hp
      simp only [List.mem_cons, List.not_mem_nil, or_false] at hp
      rcases hp with rfl | rfl
      · exact NodupDeep.int 1
      · exact NodupDeep.int 2
    · refine NodupDeep.dict _ (by decide) ?_
      intro p hp
      simp only [List.mem_cons, List.not_mem_nil, or_false] at hp
      rcases hp with rfl | rfl
      · exact NodupDeep.int 2
      · exact NodupDeep.int 1
    · simp [pyEq, pyEqEntries, List.lookup]

end Asserts
